import Mathlib

/-!
Verification of the assessment-result retrieval endpoint of BookServer
(`bookserver/routers/assessment.py`, `get_assessment_results`).

The endpoint resolves the subject id (`sid`) of the incoming
`AssessmentRequest` from the caller's identity, queries the answer store
once via `fetch_last_answer_table_entry`, and returns the row unmodified,
or the empty string when the store returns a falsy value.

External collaborators (`is_instructor`, `fetch_last_answer_table_entry`,
the authenticated `request.state.user`) are passed as explicit parameters.
Python truthiness of the store's return value and of the optional `sid`
string is modelled explicitly.
-/

namespace BookServer

/-- Modelled from the spec: the `AssessmentRequest` schema (`schemas.py` is
not part of the excerpt).  Fields: an optional `sid` (subject identifier),
the component identifier `div_id`, the `course` context, and any additional
discriminating fields accepted by the answer store, treated opaquely here
as a list of key/value pairs. -/
structure AssessmentRequest where
  sid : Option String
  div_id : String
  course : String
  extra : List (String × String)
deriving Repr, DecidableEq

/-- A Python value as returned by `fetch_last_answer_table_entry`: the
absence marker `None`, a string, or a record/collection.  Only its
truthiness and identity matter to the endpoint. -/
inductive PyValue where
  | none
  | str (s : String)
  | dict (entries : List (String × String))
  | list (elems : List String)
deriving Repr, DecidableEq

/-- Python truthiness for `PyValue`: `None`, the empty string, and empty
collections are falsy; everything else is truthy (as tested by
`if not row:` in the source). -/
def pyTruthy : PyValue → Bool
  | PyValue.none => false
  | PyValue.str s => !s.isEmpty
  | PyValue.dict entries => !entries.isEmpty
  | PyValue.list elems => !elems.isEmpty

/-- Python truthiness of the optional `sid` field (`not request_data.sid`
in the source): `None` and the empty string are falsy. -/
def pySidTruthy : Option String → Bool
  | Option.none => false
  | Option.some s => !s.isEmpty

/-- Subject resolution from `get_assessment_results`, lines 51-55 of
`assessment.py`: if the caller is an instructor, a falsy `sid` defaults to
the caller's username and a truthy `sid` is left as provided; a
non-instructor's `sid` is unconditionally overwritten with the caller's
username. -/
def resolve_subject (is_instr : Bool) (username : String)
    (rd : AssessmentRequest) : AssessmentRequest :=
  if is_instr then
    if pySidTruthy rd.sid then rd
    else { rd with sid := Option.some username }
  else
    { rd with sid := Option.some username }

/-- The body of `get_assessment_results` (`assessment.py`, lines 51-68)
after authentication: resolve the subject, fetch the last answer-table
entry for the resolved request, and return it unmodified, or the empty
string when the store's value is falsy. -/
def get_assessment_results (is_instr : Bool) (username : String)
    (fetch : AssessmentRequest → PyValue) (rd : AssessmentRequest) : PyValue :=
  let rd' := resolve_subject is_instr username rd
  let row := fetch rd'
  if pyTruthy row then row else PyValue.str ""

/-- A call to an external collaborator, recorded for the temporal claim:
the identity check (`await is_instructor(request)`, line 51) and the store
lookup (`await fetch_last_answer_table_entry(request_data)`, line 57). -/
inductive CollabEvent where
  | identityCheck
  | storeLookup
deriving Repr, DecidableEq

/-- `get_assessment_results` instrumented with a trace of collaborator
calls, transcribing the source line by line: the single identity check on
line 51, then the single store lookup on line 57. -/
def get_assessment_results_traced (is_instr : Bool) (username : String)
    (fetch : AssessmentRequest → PyValue) (rd : AssessmentRequest) :
    PyValue × List CollabEvent :=
  -- line 51: `if await is_instructor(request):` — one identity check
  let tr1 : List CollabEvent := [CollabEvent.identityCheck]
  let rd' := resolve_subject is_instr username rd
  -- line 57: `row = await fetch_last_answer_table_entry(request_data)`
  let tr2 : List CollabEvent := tr1 ++ [CollabEvent.storeLookup]
  let row := fetch rd'
  (if pyTruthy row then row else PyValue.str "", tr2)

/-- The authenticated caller's identity context
(`request.state.user.username`). -/
structure IdentityContext where
  username : String
deriving Repr, DecidableEq

/-- HTTP-level failure of the operation. -/
inductive HttpError where
  | unauthorized
deriving Repr, DecidableEq

/-- Modelled from the spec: the authentication layer (`session.py`, not in
the excerpt) rejects a request with no authenticated identity context with
HTTP 401 Unauthorized before the endpoint body runs; with an authenticated
context the endpoint body runs as written in `assessment.py`. -/
def handle_assessment_results (auth : Option IdentityContext)
    (is_instr : Bool) (fetch : AssessmentRequest → PyValue)
    (rd : AssessmentRequest) : Except HttpError PyValue :=
  match auth with
  | Option.none => Except.error HttpError.unauthorized
  | Option.some ctx =>
      Except.ok (get_assessment_results is_instr ctx.username fetch rd)

/-- Modelled from the spec: the traced variant of the full operation.  An
unauthenticated request is rejected before any collaborator is invoked, so
its trace is empty; an authenticated request runs the endpoint body with
its trace. -/
def handle_assessment_results_traced (auth : Option IdentityContext)
    (is_instr : Bool) (fetch : AssessmentRequest → PyValue)
    (rd : AssessmentRequest) :
    Except HttpError PyValue × List CollabEvent :=
  match auth with
  | Option.none => (Except.error HttpError.unauthorized, [])
  | Option.some ctx =>
      let r := get_assessment_results_traced is_instr ctx.username fetch rd
      (Except.ok r.1, r.2)

/-- The traced endpoint body computes the same result as the plain one. -/
theorem get_assessment_results_traced_fst (is_instr : Bool)
    (username : String) (fetch : AssessmentRequest → PyValue)
    (rd : AssessmentRequest) :
    (get_assessment_results_traced is_instr username fetch rd).1 =
      get_assessment_results is_instr username fetch rd := rfl

/-- C1: when the caller is not an instructor, the resolved `sid` used for
the store lookup equals the caller's username, for every client-supplied
`sid` (absent, empty, equal to, or different from the caller's username);
the client-supplied `sid` is overwritten. -/
theorem non_instructor_sid_override (username : String)
    (rd : AssessmentRequest) :
    (resolve_subject false username rd).sid = Option.some username := rfl

/-- C2: when the caller is an instructor and the request's `sid` is absent
or empty, the resolved `sid` equals the caller's username. -/
theorem instructor_default_sid (username : String) (rd : AssessmentRequest)
    (h : rd.sid = Option.none ∨ rd.sid = Option.some "") :
    (resolve_subject true username rd).sid = Option.some username := by
  rcases h with h | h <;>
    simp [resolve_subject, pySidTruthy, h, String.isEmpty]

/-- Witness for C2 at a concrete input: instructor caller, empty `sid`. -/
theorem instructor_default_sid_witness :
    (resolve_subject true "prof1"
        ⟨Option.some "", "q1", "cs101", []⟩).sid = Option.some "prof1" :=
  instructor_default_sid "prof1" ⟨Option.some "", "q1", "cs101", []⟩
    (Or.inr rfl)

/-- C3: when the caller is an instructor and the request supplies a
non-empty `sid` value `s` (including another student's id), the request is
left unchanged, so the resolved `sid` equals `s`. -/
theorem instructor_keeps_supplied_sid (username s : String)
    (rd : AssessmentRequest) (hs : rd.sid = Option.some s) (hne : s ≠ "") :
    resolve_subject true username rd = rd ∧
      (resolve_subject true username rd).sid = Option.some s := by
  have hemp : s.isEmpty = false := by
    rw [Bool.eq_false_iff]
    simpa [String.isEmpty_iff] using hne
  have htru : pySidTruthy rd.sid = true := by
    simp [pySidTruthy, hs, hemp]
  have heq : resolve_subject true username rd = rd := by
    simp [resolve_subject, htru]
  exact ⟨heq, by rw [heq, hs]⟩

/-- Witness for C3 at a concrete input: instructor "prof1" querying
student "stu1". -/
theorem instructor_keeps_supplied_sid_witness :
    resolve_subject true "prof1" ⟨Option.some "stu1", "q1", "cs101", []⟩ =
        ⟨Option.some "stu1", "q1", "cs101", []⟩ ∧
      (resolve_subject true "prof1"
          ⟨Option.some "stu1", "q1", "cs101", []⟩).sid =
        Option.some "stu1" :=
  instructor_keeps_supplied_sid "prof1" "stu1"
    ⟨Option.some "stu1", "q1", "cs101", []⟩ rfl (by decide)

/-- C4: when the answer store returns a (truthy) entry `E` for the
resolved request, the operation's result is exactly `E`: no
transformation, no grading computation, no field added or removed. -/
theorem result_pass_through (is_instr : Bool) (username : String)
    (fetch : AssessmentRequest → PyValue) (rd : AssessmentRequest)
    (E : PyValue) (hE : fetch (resolve_subject is_instr username rd) = E)
    (htru : pyTruthy E = true) :
    get_assessment_results is_instr username fetch rd = E := by
  simp [get_assessment_results, hE, htru]

/-- Witness for C4 at a concrete input: the store returns a one-field
record, and the endpoint returns it verbatim. -/
theorem result_pass_through_witness :
    get_assessment_results false "stu2"
        (fun _ => PyValue.dict [("answer", "42")])
        ⟨Option.none, "q1", "cs101", []⟩ =
      PyValue.dict [("answer", "42")] :=
  result_pass_through false "stu2" (fun _ => PyValue.dict [("answer", "42")])
    ⟨Option.none, "q1", "cs101", []⟩ (PyValue.dict [("answer", "42")]) rfl
    (by decide)

/-- C5: when the answer store returns no entry (the absence marker `None`)
for the resolved request, the authenticated operation returns the empty
string as a successful result — not an error, not a 404, and not
null-with-error-status. -/
theorem no_match_empty_result (ctx : IdentityContext) (is_instr : Bool)
    (fetch : AssessmentRequest → PyValue) (rd : AssessmentRequest)
    (h : fetch (resolve_subject is_instr ctx.username rd) = PyValue.none) :
    handle_assessment_results (Option.some ctx) is_instr fetch rd =
      Except.ok (PyValue.str "") := by
  simp [handle_assessment_results, get_assessment_results, h, pyTruthy]

/-- Witness for C5 at a concrete input: store has no entry, result is the
successful empty string. -/
theorem no_match_empty_result_witness :
    handle_assessment_results (Option.some ⟨"stu2"⟩) false
        (fun _ => PyValue.none) ⟨Option.none, "q1", "cs101", []⟩ =
      Except.ok (PyValue.str "") :=
  no_match_empty_result ⟨"stu2"⟩ false (fun _ => PyValue.none)
    ⟨Option.none, "q1", "cs101", []⟩ rfl

/-- C6: after subject resolution and before the store lookup, the
request's `sid` is non-empty and is either the caller's own username or,
only for an instructor caller, the identity the instructor supplied —
assuming the caller's username is itself non-empty. -/
theorem resolved_sid_invariant (is_instr : Bool) (username : String)
    (rd : AssessmentRequest) (hu : username ≠ "") :
    ∃ s, (resolve_subject is_instr username rd).sid = Option.some s ∧
      s ≠ "" ∧ (s = username ∨ (is_instr = true ∧ rd.sid = Option.some s)) := by
  cases is_instr with
  | false => exact ⟨username, rfl, hu, Or.inl rfl⟩
  | true =>
      cases hsid : rd.sid with
      | none =>
          refine ⟨username, ?_, hu, Or.inl rfl⟩
          simp [resolve_subject, pySidTruthy, hsid]
      | some s =>
          by_cases hs : s = ""
          · refine ⟨username, ?_, hu, Or.inl rfl⟩
            simp [resolve_subject, pySidTruthy, hsid, hs, String.isEmpty]
          · have hemp : s.isEmpty = false := by
              rw [Bool.eq_false_iff]
              simpa [String.isEmpty_iff] using hs
            refine ⟨s, ?_, hs, Or.inr ⟨rfl, rfl⟩⟩
            simp [resolve_subject, pySidTruthy, hsid, hemp]

/-- Witness for C6 at a concrete input: instructor "prof1" supplying
student "stu1". -/
theorem resolved_sid_invariant_witness :
    ∃ s, (resolve_subject true "prof1"
          ⟨Option.some "stu1", "q1", "cs101", []⟩).sid = Option.some s ∧
      s ≠ "" ∧ (s = "prof1" ∨ (true = true ∧
        (⟨Option.some "stu1", "q1", "cs101", []⟩ : AssessmentRequest).sid =
          Option.some s)) :=
  resolved_sid_invariant true "prof1" ⟨Option.some "stu1", "q1", "cs101", []⟩
    (by decide)

/-- C7: a request with no authenticated identity context fails with
Unauthorized, and neither the identity check nor the store lookup is ever
reached: for every instructor flag, store function and request, the result
is the same Unauthorized error and the collaborator-call trace is empty. -/
theorem unauthenticated_rejected (is_instr : Bool)
    (fetch : AssessmentRequest → PyValue) (rd : AssessmentRequest) :
    handle_assessment_results_traced Option.none is_instr fetch rd =
      (Except.error HttpError.unauthorized, []) := rfl

/-- C8: every authenticated invocation performs at most one identity check
and at most one store lookup, sequentially, with the identity check first:
the collaborator-call trace is exactly the identity check followed by the
store lookup, so each occurs exactly once and there is no second lookup or
retry. -/
theorem single_check_single_lookup (ctx : IdentityContext) (is_instr : Bool)
    (fetch : AssessmentRequest → PyValue) (rd : AssessmentRequest) :
    (handle_assessment_results_traced (Option.some ctx) is_instr fetch
        rd).2 = [CollabEvent.identityCheck, CollabEvent.storeLookup] ∧
      (handle_assessment_results_traced (Option.some ctx) is_instr fetch
        rd).2.count CollabEvent.identityCheck ≤ 1 ∧
      (handle_assessment_results_traced (Option.some ctx) is_instr fetch
        rd).2.count CollabEvent.storeLookup ≤ 1 := by
  have h : (handle_assessment_results_traced (Option.some ctx) is_instr
      fetch rd).2 = [CollabEvent.identityCheck, CollabEvent.storeLookup] :=
    rfl
  refine ⟨h, ?_, ?_⟩ <;> rw [h] <;> decide

/-- C9: the endpoint returns the empty string whenever the store's return
value is falsy — not only the absence marker `None` but also an empty
record, an empty collection or an empty string — and passes the value to
the caller unmodified exactly when it is truthy. -/
theorem falsy_row_empty_string (is_instr : Bool) (username : String)
    (rd : AssessmentRequest) (v : PyValue) :
    get_assessment_results is_instr username (fun _ => v) rd =
      (if pyTruthy v then v else PyValue.str "") := rfl

/-- C10: subject resolution modifies only the `sid` field; `div_id`,
`course` and all additional discriminating fields reach the store lookup
with exactly the client-supplied values. -/
theorem resolution_frame (is_instr : Bool) (username : String)
    (rd : AssessmentRequest) :
    (resolve_subject is_instr username rd).div_id = rd.div_id ∧
      (resolve_subject is_instr username rd).course = rd.course ∧
      (resolve_subject is_instr username rd).extra = rd.extra := by
  cases is_instr with
  | false => exact ⟨rfl, rfl, rfl⟩
  | true => cases h : pySidTruthy rd.sid <;> simp [resolve_subject, h]

end BookServer
